import Mathlib

/-!
Verification development for the node-backend multi-tenant gateway.

The definitions below are a shallow embedding of the organization-context
resolution and impersonation engine (src/src/services/clientConfigService.ts,
middleware section) and of the organization-scoped GroundX routes
(src/unnamed/part_002: GET /buckets, POST /search, POST /rag).

Modelling conventions:
- TypeScript strings are Lean String; optional / possibly-undefined fields are
  Option.  JavaScript truthiness of an optional string (undefined or the empty
  string are falsy) is `jsFalsyOptStr`.
- JavaScript numbers relevant to score extraction are modelled exactly as the
  IEEE value classes the code distinguishes: NaN, plus infinity, minus
  infinity, or a finite value (a rational).  No floating-point arithmetic is
  performed by the modelled code, only typeof / isNaN tests, so this model is
  exact.
- The in-memory session Map is modelled as a function from keys to optional
  sessions; Date.now clock values are Int milliseconds.
-/

/-- Substring test on character lists: `containsSub pat hay` is true iff
`pat` occurs contiguously inside `hay`.  Mirrors JavaScript
`hay.includes(pat)`. -/
def containsSub (pat : List Char) : List Char → Bool
  | [] => pat.isEmpty
  | c :: t => pat.isPrefixOf (c :: t) || containsSub pat t

/-- JavaScript `s.includes(pat)` on strings (case-sensitive). -/
def containsSubstr (s pat : String) : Bool :=
  containsSub pat.data s.data

/-- JavaScript `s.toLowerCase()` restricted to ASCII, as a character list.
All strings appearing in the repository are ASCII. -/
def lowerStr (s : String) : List Char :=
  s.data.map Char.toLower

/-- JavaScript `name.toLowerCase().includes(pattern.toLowerCase())`. -/
def containsCI (s pat : String) : Bool :=
  containsSub (lowerStr pat) (lowerStr s)

/-- JavaScript truthiness test (negated) for an optional string: undefined and
the empty string are falsy. -/
def jsFalsyOptStr : Option String → Bool
  | none => true
  | some s => decide (s = "")

/-- JavaScript `a || b` for two optional strings: an undefined or empty first
operand yields the second. -/
def jsOrOpt (a b : Option String) : Option String :=
  match a with
  | some s => if s = "" then b else some s
  | none => b

/-! ## Privilege determination (clientConfigService.ts lines 496-499)

`isQIG = !!(user.email && (user.email.includes(AT-qig-DOT) ||
user.email.includes(AT-qualityimprovementgroup-DOT)))`. -/

/-- The fixed administrative-domain markers the privilege check looks for
inside the email. -/
def adminDomainPatterns : List String :=
  ["@qig.", "@qualityimprovementgroup."]

/-- Privilege check from the source: the email is truthy and contains one of
the two fixed administrative-domain markers as a substring. -/
def isQIGEmail (email : Option String) : Bool :=
  match email with
  | none => false
  | some e =>
    if e = "" then false
    else containsSubstr e "@qig." || containsSubstr e "@qualityimprovementgroup."

/-! ## Organization context (clientConfigService.ts lines 501-604) -/

/-- Organization assignment record: the `{id, name, type}` object built from a
client-configurations row (or the fixed QIG sentinel). -/
structure OrgInfo where
  id : String
  name : String
  type : String
deriving DecidableEq, Repr

/-- The sentinel organization given to every privileged identity
(lines 503-509). -/
def qigOrganization : OrgInfo :=
  ⟨"qig-org", "QIG", "enterprise"⟩

/-- Resolution of `userOrganizationInfo` (lines 501-530): privileged
identities get the QIG sentinel; others get the first active client
configuration looked up by subject id, or none (lookup errors are treated as
none as well). The lookup result is passed in as `configLookup`. -/
def resolveUserOrgInfo (isQIG : Bool) (configLookup : Option OrgInfo) : Option OrgInfo :=
  if isQIG then some qigOrganization else configLookup

/-- The `canAccessOrganization` closure (lines 575-577):
`isQIG || orgId === userOrganizationInfo?.id`.  When no organization
assignment exists the optional chain yields undefined and the strict equality
with a string is false. -/
def canAccessOrganization (isQIG : Bool) (uoi : Option OrgInfo) (orgId : String) : Bool :=
  isQIG ||
    (match uoi with
     | some o => decide (orgId = o.id)
     | none => false)

/-- The `userOrganizationId` context field (line 570):
`userOrganizationInfo?.id || two-single-quotes`, i.e. the assignment id or the
empty string. -/
def homeOrgId (uoi : Option OrgInfo) : String :=
  (uoi.map OrgInfo.id).getD ""

/-- The `userOrganizationName` context field (line 571). -/
def homeOrgName (uoi : Option OrgInfo) : String :=
  (uoi.map OrgInfo.name).getD ""

/-! ## Impersonation store (clientConfigService.ts lines 406-411, 662-687) -/

/-- One entry of the `organizationSessions` Map. -/
structure OrgSession where
  activeOrganizationId : String
  timestamp : Int
deriving DecidableEq, Repr

/-- The `organizationSessions` Map, modelled as a function from user id to an
optional session (a JavaScript Map has at most one entry per key). -/
def Store : Type := String → Option OrgSession

/-- Session validity window: 24 hours in milliseconds. -/
def SESSION_TTL_MS : Int := 24 * 60 * 60 * 1000

/-- Map deletion: `organizationSessions.delete(userId)`. -/
def eraseSession (store : Store) (userId : String) : Store :=
  fun k => if k = userId then none else store k

/-- `getOrganizationSession` (lines 673-687): returns the stored session when
its age is strictly below 24 hours; otherwise deletes the entry and returns
null.  The function returns the read result together with the store after the
call. -/
def getOrganizationSession (store : Store) (now : Int) (userId : String) :
    Option OrgSession × Store :=
  match store userId with
  | some session =>
    if now - session.timestamp < SESSION_TTL_MS then
      (some session, store)
    else
      (none, eraseSession store userId)
  | none => (none, store)

/-- Determination of the active organization (lines 532-566): starts from the
home assignment; only when the identity is privileged and has an assignment is
the session map consulted, and only an unexpired session whose target
organization re-resolves (via `lookupOrg`, modelling the client-configurations
query) replaces the active organization.  An expired session is deleted.
Returns the active organization and the store after the call. -/
def determineActiveOrganization (isQIG : Bool) (uoi : Option OrgInfo)
    (store : Store) (userId : String) (now : Int)
    (lookupOrg : String → Option OrgInfo) : Option OrgInfo × Store :=
  if isQIG && uoi.isSome then
    match store userId with
    | some s =>
      if now - s.timestamp < SESSION_TTL_MS then
        match lookupOrg s.activeOrganizationId with
        | some o => (some o, store)
        | none => (uoi, store)
      else
        (uoi, eraseSession store userId)
    | none => (uoi, store)
  else
    (uoi, store)

/-- The organization context object (lines 569-578) minus the `canAccess`
closure, which is modelled separately as `canAccessOrganization`. -/
structure OrganizationContext where
  userOrganizationId : String
  userOrganizationName : String
  activeOrganizationId : String
  activeOrganizationName : String
  isQIGAdmin : Bool
deriving DecidableEq, Repr

/-- Construction of the context record fields (lines 569-574). -/
def buildOrganizationContext (isQIG : Bool) (uoi active : Option OrgInfo) :
    OrganizationContext :=
  { userOrganizationId := homeOrgId uoi
    userOrganizationName := homeOrgName uoi
    activeOrganizationId := homeOrgId active
    activeOrganizationName := homeOrgName active
    isQIGAdmin := isQIG }

/-! ## Bucket filtering (part_002, GET /buckets, lines 147-196) -/

/-- Bucket record as the filter sees it: only the three optional name fields
participate in filtering.  Identifier and document-count fields of the
GroundX bucket object are not consulted by any claim and are omitted. -/
structure Bucket where
  name : Option String
  title : Option String
  bucketName : Option String
deriving DecidableEq, Repr

/-- Bucket display name used by the filter (line 166):
`bucket.name || bucket.title || bucket.bucketName || empty`. -/
def bucketDisplayName (b : Bucket) : String :=
  (jsOrOpt b.name (jsOrOpt b.title b.bucketName)).getD ""

/-- The fixed organization-to-bucket pattern table (lines 154-158). -/
def orgToBucketMapping (orgName : String) : Option (List String) :=
  if orgName = "Austin Industries" then some ["Austin Industries", "Austin", "AI"]
  else if orgName = "QIG" then some ["QIG", "Quality Improvement Group"]
  else if orgName = "Spinakr" then some ["Spinakr", "Spinaker", "Spnkr"]
  else none

/-- The bucket filter (lines 160-176): when the user is not QIG and the
organization name is truthy, keep the buckets whose display name contains one
of the organization patterns case-insensitively; otherwise return all buckets
unchanged. -/
def filterBuckets (isQIG : Bool) (organizationName : Option String)
    (buckets : List Bucket) : List Bucket :=
  if !isQIG && !(jsFalsyOptStr organizationName) then
    let orgName := organizationName.getD ""
    let bucketPatterns := (orgToBucketMapping orgName).getD [orgName]
    buckets.filter (fun b =>
      bucketPatterns.any (fun pattern => containsCI (bucketDisplayName b) pattern))
  else
    buckets

/-- Stated from the spec wording of the filter policy: the pattern list for an
organization display name, the fallback being the display name itself. -/
def specBucketPatterns (orgName : String) : List String :=
  (orgToBucketMapping orgName).getD [orgName]

/-- Stated from the spec wording: a bucket is kept iff its display name
contains at least one pattern as a case-insensitive substring. -/
def specBucketKeep (orgName : String) (b : Bucket) : Bool :=
  (specBucketPatterns orgName).any (fun pattern => containsCI (bucketDisplayName b) pattern)

/-! ## Score extraction (part_002, lines 109-126) -/

/-- JavaScript number value classes distinguished by the scoring code. Finite
values are carried exactly as rationals; the code performs no arithmetic on
them. -/
inductive JsNum where
  | nan
  | posInf
  | negInf
  | val (q : ℚ)
deriving DecidableEq, Repr

/-- A candidate score field value: either a JavaScript number or any
non-number value (undefined, string, object, and so on — everything for which
`typeof v` is not the string "number"). -/
inductive JsValue where
  | num (n : JsNum)
  | other
deriving DecidableEq, Repr

/-- The metadata record, modelling only the `.score` key the scoring code
reads; a missing key is `JsValue.other` (undefined). -/
structure MetadataRec where
  score : JsValue
deriving DecidableEq, Repr

/-- The searchData record, modelling only the `.score` key. -/
structure SearchDataRec where
  score : JsValue
deriving DecidableEq, Repr

/-- The highlight record: `highlight.text` is an optional string array. -/
structure HighlightRec where
  text : Option (List String)
deriving DecidableEq, Repr

/-- A GroundX search result item with the fields the routes consume.
Passthrough-only fields of the response (pageImages, narrative,
boundingBoxes, json, fileKeywords, bucketId, multimodalUrl) do not affect any
claim and are omitted. -/
structure SearchResultItem where
  documentId : Option String
  fileName : Option String
  score : JsValue
  relevanceScore : JsValue
  rankingScore : JsValue
  text : Option String
  suggestedText : Option String
  metadata : Option MetadataRec
  searchData : Option SearchDataRec
  highlight : Option HighlightRec
  sourceUrl : Option String
deriving DecidableEq, Repr

/-- A result item with every field absent, used to build concrete test
records. -/
def emptySearchItem : SearchResultItem :=
  ⟨none, none, JsValue.other, JsValue.other, JsValue.other,
   none, none, none, none, none, none⟩

/-- Optional chain `result.metadata?.score` (undefined when metadata is
absent). -/
def metadataScoreOf (r : SearchResultItem) : JsValue :=
  match r.metadata with
  | some m => m.score
  | none => JsValue.other

/-- Optional chain `result.searchData?.score`. -/
def searchDataScoreOf (r : SearchResultItem) : JsValue :=
  match r.searchData with
  | some d => d.score
  | none => JsValue.other

/-- The `scoreFields` object of `extractBestScore` (lines 110-116), as the
ordered entry list `Object.entries` iterates. -/
def scoreFields (r : SearchResultItem) : List (String × JsValue) :=
  [("primaryScore", r.score),
   ("relevanceScore", r.relevanceScore),
   ("rankingScore", r.rankingScore),
   ("metadataScore", metadataScoreOf r),
   ("searchDataScore", searchDataScoreOf r)]

/-- The scanning loop of `extractBestScore` (lines 119-125): return the first
entry whose value satisfies `typeof score === "number" && !isNaN(score)`,
else the default. -/
def firstValidScore : List (String × JsValue) → JsNum × String
  | [] => (JsNum.val 0, "default")
  | (source, v) :: rest =>
    match v with
    | JsValue.num JsNum.nan => firstValidScore rest
    | JsValue.num n => (n, source)
    | JsValue.other => firstValidScore rest

/-- `extractBestScore` (lines 109-126). -/
def extractBestScore (r : SearchResultItem) : JsNum × String :=
  firstValidScore (scoreFields r)

/-- Numeric payload of a value known to be a number (NaN as a dummy
otherwise). -/
def jsNumOf : JsValue → JsNum
  | JsValue.num n => n
  | JsValue.other => JsNum.nan

/-- Qualification predicate of the spec wording of the claim: the value is a
finite number. -/
def isFiniteNumber : JsValue → Bool
  | JsValue.num (JsNum.val _) => true
  | _ => false

/-- Qualification predicate actually used by the code: the value is a number
other than NaN (infinities qualify). -/
def isNonNaNNumber : JsValue → Bool
  | JsValue.num JsNum.nan => false
  | JsValue.num _ => true
  | JsValue.other => false

/-- Generic first-qualifying-field scan over the ordered candidate list, used
to state the claim and its amendment. -/
def firstScoreWith (qualifies : JsValue → Bool) : List (String × JsValue) → JsNum × String
  | [] => (JsNum.val 0, "default")
  | (source, v) :: rest =>
    if qualifies v then (jsNumOf v, source) else firstScoreWith qualifies rest

/-- Stated from the claim wording: return the first candidate that is a
finite number, else zero tagged default. -/
def specExtractFiniteScore (r : SearchResultItem) : JsNum × String :=
  firstScoreWith isFiniteNumber (scoreFields r)

/-- Amended wording: return the first candidate that is a number other than
NaN, else zero tagged default. -/
def specExtractNonNaNScore (r : SearchResultItem) : JsNum × String :=
  firstScoreWith isNonNaNNumber (scoreFields r)

/-! ## Search envelope and the POST /search handler (part_002, lines 501-555) -/

/-- The `search` block of a GroundX content-search response; `results` is
absent when the upstream omitted or nulled the array. -/
structure SearchBlock where
  results : Option (List SearchResultItem)
deriving DecidableEq, Repr

/-- A GroundX content-search response envelope; `search` itself may be absent
or null. -/
structure SearchEnvelope where
  search : Option SearchBlock
deriving DecidableEq, Repr

/-- Results reachable through the optional chain
`searchResponse?.search?.results`. -/
def envResults (env : SearchEnvelope) : Option (List SearchResultItem) :=
  env.search.bind SearchBlock.results

/-- One mapped result of the /search response (lines 529-540). -/
structure MappedSearchResult where
  documentId : Option String
  fileName : Option String
  text : Option String
  score : JsNum
  metadata : Option MetadataRec
  highlights : List String
deriving DecidableEq, Repr

/-- The /search per-result mapping (lines 529-540): text falls back to
suggestedText, the score comes from extractBestScore, highlights from
`result.highlight?.text || []`. -/
def mapSearchResult (r : SearchResultItem) : MappedSearchResult :=
  { documentId := r.documentId
    fileName := r.fileName
    text := jsOrOpt r.text r.suggestedText
    score := (extractBestScore r).1
    metadata := r.metadata
    highlights := (r.highlight.bind HighlightRec.text).getD [] }

/-- The JSON body the /search handler sends for a well-formed envelope. -/
structure SearchHandlerResponse where
  success : Bool
  results : List MappedSearchResult
  count : Nat
deriving DecidableEq, Repr

/-- The /search handler body after the search call returns (lines 521-546):
a missing results array is answered with success, an empty results list and a
zero count; otherwise the mapped results are returned with their length. -/
def searchHandler (env : SearchEnvelope) : SearchHandlerResponse :=
  match envResults env with
  | none => { success := true, results := [], count := 0 }
  | some rs =>
    let mapped := rs.map mapSearchResult
    { success := true, results := mapped, count := mapped.length }

/-! ## The POST /rag handler (part_002, lines 207-411) -/

/-- One source of the RAG response (lines 294-317).  Passthrough fields that
no claim consults (pageImages, narrative, boundingBoxes, json, fileKeywords,
bucketId, multimodalUrl) are omitted. -/
structure RagSource where
  id : Option String
  fileName : Option String
  text : Option String
  metadata : Option MetadataRec
  sourceUrl : Option String
  score : JsNum
  rawScore : JsNum
  scoreSource : String
  highlights : List String
  hasXray : Bool
  searchData : Option SearchDataRec
deriving DecidableEq, Repr

/-- The /rag per-result mapping (lines 294-317). -/
def mapRagSource (r : SearchResultItem) : RagSource :=
  let scoreData := extractBestScore r
  { id := r.documentId
    fileName := r.fileName
    text := jsOrOpt r.text r.suggestedText
    metadata := r.metadata
    sourceUrl := r.sourceUrl
    score := scoreData.1
    rawScore := scoreData.1
    scoreSource := scoreData.2
    highlights := (r.highlight.bind HighlightRec.text).getD []
    hasXray := true
    searchData := r.searchData }

/-- The retrieval-phase validation of /rag (lines 284-317): a missing results
array throws (the thrown message propagates to the catch block, which answers
with success false — the RetrievalError of the spec); a present array, empty
included, is mapped to the source list. -/
def ragRetrieval (env : SearchEnvelope) : Except String (List RagSource) :=
  match envResults env with
  | none => Except.error "No search results from GroundX"
  | some rs => Except.ok (rs.map mapRagSource)

/-- The assembled RAG answer fields the claims consult (lines 379-397). -/
structure RagAnswerModel where
  success : Bool
  query : String
  response : String
  count : Nat
  sources : List RagSource
deriving DecidableEq, Repr

/-- Assembly of the RAG response record for a successful request
(lines 379-393). -/
def assembleRagAnswer (query aiResponse : String) (sources : List RagSource) :
    RagAnswerModel :=
  { success := true
    query := query
    response := aiResponse
    count := sources.length
    sources := sources }

/-! ## Request preconditions of /rag (part_002, lines 260-277) -/

/-- Decimal digit value of a character. -/
def digitVal (c : Char) : Option Nat :=
  if '0' ≤ c ∧ c ≤ '9' then some (c.toNat - '0'.toNat) else none

/-- Hexadecimal digit value of a character. -/
def hexDigitVal (c : Char) : Option Nat :=
  if '0' ≤ c ∧ c ≤ '9' then some (c.toNat - '0'.toNat)
  else if 'a' ≤ c ∧ c ≤ 'f' then some (c.toNat - 'a'.toNat + 10)
  else if 'A' ≤ c ∧ c ≤ 'F' then some (c.toNat - 'A'.toNat + 10)
  else none

/-- Greedy digit scan of JavaScript parseInt: consume leading digits of the
radix, stop at the first non-digit; none when no digit was consumed. -/
def parseDigits (dv : Char → Option Nat) (base : Nat) :
    List Char → Option Nat → Option Nat
  | [], acc => acc
  | c :: rest, acc =>
    match dv c with
    | some d => parseDigits dv base rest (some ((acc.getD 0) * base + d))
    | none => acc

/-- Magnitude part of parseInt with no explicit radix: a 0x or 0X prefix
selects hexadecimal, otherwise decimal. -/
def parseMagnitude : List Char → Option Nat
  | '0' :: 'x' :: rest => parseDigits hexDigitVal 16 rest none
  | '0' :: 'X' :: rest => parseDigits hexDigitVal 16 rest none
  | cs => parseDigits digitVal 10 cs none

/-- JavaScript `parseInt(s)` (radix argument omitted): skip leading
whitespace, read an optional sign, then digits; none models NaN. -/
def parseIntJS (s : String) : Option Int :=
  let cs := s.data.dropWhile (fun c => c == ' ' || c == '\t' || c == '\n' || c == '\r')
  match cs with
  | '-' :: rest => (parseMagnitude rest).map (fun m => -(m : Int))
  | '+' :: rest => (parseMagnitude rest).map (fun m => (m : Int))
  | _ => (parseMagnitude cs).map (fun m => (m : Int))

/-- Outcome of the /rag request validation: either the 400 response, or the
retrieval call with the collection identifier actually passed to
`client.search.content` (none models NaN from parseInt). -/
inductive RagStep where
  | invalidRequest
  | retrieve (collectionId : Option Int)
deriving DecidableEq, Repr

/-- The /rag precondition check and dispatch (lines 260-277): a falsy query
or bucketId is answered 400 before any network call; otherwise the retrieval
call is issued with `parseInt(bucketId)`.  The body fields are modelled as
optional strings (a numeric JSON bucketId arrives as its decimal string). -/
def ragDispatch (query bucketId : Option String) : RagStep :=
  if jsFalsyOptStr query || jsFalsyOptStr bucketId then
    RagStep.invalidRequest
  else
    RagStep.retrieve (parseIntJS (bucketId.getD ""))

/-! ## Helper lemmas -/

/-- An empty pattern is contained in every character list. -/
theorem containsSub_nil (hay : List Char) : containsSub [] hay = true := by
  cases hay with
  | nil => rfl
  | cons c t => rfl

/-- Filtering with a pointwise-true predicate keeps the whole list. -/
theorem filter_all_true {α : Type} (p : α → Bool) (h : ∀ a, p a = true)
    (l : List α) : l.filter p = l := by
  induction l with
  | nil => rfl
  | cons a t ih => simp [List.filter, h a, ih]

/-- The fallback pattern of the empty organization name matches every
bucket. -/
theorem specBucketKeep_empty (b : Bucket) : specBucketKeep "" b = true := by
  show ([""].any fun pattern => containsCI (bucketDisplayName b) pattern) = true
  simp [containsCI, lowerStr, containsSub_nil]

/-- The scanning loop of extractBestScore agrees with the generic
first-qualifying scan under the number-other-than-NaN predicate. -/
theorem firstValidScore_eq_nonNaN (l : List (String × JsValue)) :
    firstValidScore l = firstScoreWith isNonNaNNumber l := by
  induction l with
  | nil => rfl
  | cons p rest ih =>
    obtain ⟨source, v⟩ := p
    cases v with
    | num n =>
      cases n <;>
        simp [firstValidScore, firstScoreWith, isNonNaNNumber, jsNumOf, ih]
    | other => simp [firstValidScore, firstScoreWith, isNonNaNNumber, ih]

/-! ## Claim theorems -/

/-- C1: for every verified identity, the privilege flag is true iff the email
contains one of the small fixed set of administrative-domain markers, and the
check is a pure function of the email, so equal identities always yield equal
privilege. -/
theorem privilege_iff_admin_domain (email : Option String) :
    (isQIGEmail email = true ↔
      ∃ p ∈ adminDomainPatterns, containsSubstr (email.getD "") p = true) ∧
    (∀ email2 : Option String, email = email2 → isQIGEmail email = isQIGEmail email2) := by
  constructor
  · cases email with
    | none => decide
    | some e =>
      by_cases he : e = ""
      · subst he; decide
      · simp [isQIGEmail, he, adminDomainPatterns]
  · intro email2 h
    rw [h]

/-- Witness for C1 at concrete emails: a qig address is privileged and an
unrelated address is not. -/
theorem privilege_iff_admin_domain_witness :
    isQIGEmail (some "bob@qig.com") = true ∧
    isQIGEmail (some "bob@acme.com") = false := by
  constructor
  · exact (privilege_iff_admin_domain (some "bob@qig.com")).1.mpr
      ⟨"@qig.", by decide, by decide⟩
  · cases hb : isQIGEmail (some "bob@acme.com") with
    | false => rfl
    | true =>
      exact absurd ((privilege_iff_admin_domain (some "bob@acme.com")).1.mp hb)
        (by decide)

/-- C2 counterexample: for a non-privileged identity with no organization
assignment, homeOrgId is the empty string, yet canAccess on the empty string
is false — the claimed biconditional fails at this concrete input. -/
theorem canAccess_home_claim_counterexample :
    ¬ (canAccessOrganization false none "" = true ↔
        (false = true ∨ "" = homeOrgId none)) := by
  decide

/-- C2 amended: canAccess(orgId) is true iff the context is privileged or an
organization assignment exists and orgId equals its id; with no assignment
every orgId, the empty string included, is denied. -/
theorem canAccess_characterization (isQIG : Bool) (uoi : Option OrgInfo)
    (orgId : String) :
    canAccessOrganization isQIG uoi orgId = true ↔
      (isQIG = true ∨ ∃ o, uoi = some o ∧ orgId = o.id) := by
  cases isQIG with
  | true => simp [canAccessOrganization]
  | false =>
    cases uoi with
    | none => simp [canAccessOrganization]
    | some o => simp [canAccessOrganization]

/-- Witness for C2 at concrete inputs: access to the home organization is
granted, and with no assignment even the empty orgId is denied. -/
theorem canAccess_characterization_witness :
    canAccessOrganization false (some ⟨"org-1", "Acme", "default"⟩) "org-1" = true ∧
    canAccessOrganization false none "" = false := by
  constructor
  · exact (canAccess_characterization false (some ⟨"org-1", "Acme", "default"⟩) "org-1").mpr
      (Or.inr ⟨⟨"org-1", "Acme", "default"⟩, rfl, rfl⟩)
  · cases hb : canAccessOrganization false none "" with
    | false => rfl
    | true =>
      rcases (canAccess_characterization false none "").mp hb with h | ⟨o, ho, _⟩
      · exact absurd h (by decide)
      · exact Option.noConfusion ho

/-- C3: a privileged admin receives all buckets unchanged; otherwise a bucket
is kept iff its display name contains, case-insensitively, a pattern from the
fixed table for the active organization display name (fallback: the name
itself); the Austin Industries scenario returns exactly the first bucket. -/
theorem bucket_filter_spec :
    (∀ (orgName : Option String) (buckets : List Bucket),
        filterBuckets true orgName buckets = buckets) ∧
    (∀ (orgName : String) (buckets : List Bucket),
        filterBuckets false (some orgName) buckets
          = buckets.filter (specBucketKeep orgName)) ∧
    filterBuckets false (some "Austin Industries")
        [⟨some "Austin Industries Contracts", none, none⟩,
         ⟨some "QIG Internal", none, none⟩,
         ⟨some "Spinakr Ads", none, none⟩]
      = [⟨some "Austin Industries Contracts", none, none⟩] := by
  refine ⟨fun orgName buckets => rfl, fun orgName buckets => ?_, by decide⟩
  by_cases h : orgName = ""
  · subst h
    exact (filter_all_true _ specBucketKeep_empty buckets).symm
  · have hc : (!false && !(jsFalsyOptStr (some orgName))) = true := by
      simp [jsFalsyOptStr, h]
    unfold filterBuckets
    rw [if_pos hc]
    exact rfl

/-- C4: a non-privileged user with an absent or empty organization name gets
every bucket back unfiltered, the same result a privileged admin gets. -/
theorem no_org_skips_filtering (buckets : List Bucket) :
    filterBuckets false none buckets = buckets ∧
    filterBuckets false (some "") buckets = buckets ∧
    ∀ orgName : Option String,
      filterBuckets false none buckets = filterBuckets true orgName buckets := by
  exact ⟨rfl, rfl, fun orgName => rfl⟩

/-- C5 counterexample: an envelope whose search block lacks the results array
is answered by the /search handler with success true, an empty result list
and a zero count — a success, not a distinguishable failure. -/
theorem search_missing_results_counterexample :
    searchHandler ⟨some ⟨none⟩⟩ = { success := true, results := [], count := 0 } ∧
    envResults ⟨some ⟨none⟩⟩ = none ∧
    (searchHandler ⟨some ⟨none⟩⟩).success ≠ false := by
  exact ⟨rfl, rfl, by decide⟩

/-- C5 amended: a search response lacking the results array is presented by
the /search handler as a successful response with zero results, identical to
the response for a genuinely empty result array. -/
theorem search_missing_results_amended (env : SearchEnvelope)
    (h : envResults env = none) :
    searchHandler env = { success := true, results := [], count := 0 } ∧
    searchHandler env = searchHandler ⟨some ⟨some []⟩⟩ := by
  unfold searchHandler
  rw [h]
  exact ⟨rfl, rfl⟩

/-- Witness for the amended C5 at the fully absent envelope. -/
theorem search_missing_results_amended_witness :
    searchHandler ⟨none⟩ = { success := true, results := [], count := 0 } :=
  (search_missing_results_amended ⟨none⟩ rfl).1

/-- C6: a well-formed empty results array makes the /rag retrieval phase
succeed with an empty source list (and the assembled answer has empty sources
and success true), while a missing results array makes it fail with the
retrieval error. -/
theorem rag_empty_vs_missing (env : SearchEnvelope) :
    (envResults env = some [] →
      ragRetrieval env = Except.ok [] ∧
      ∀ q a : String, (assembleRagAnswer q a []).sources = [] ∧
        (assembleRagAnswer q a []).success = true) ∧
    (envResults env = none →
      ragRetrieval env = Except.error "No search results from GroundX") := by
  constructor
  · intro h
    refine ⟨?_, fun q a => ⟨rfl, rfl⟩⟩
    unfold ragRetrieval
    rw [h]
    exact rfl
  · intro h
    unfold ragRetrieval
    rw [h]

/-- Witness for C6 at concrete envelopes: an empty array succeeds, a missing
array errors. -/
theorem rag_empty_vs_missing_witness :
    ragRetrieval ⟨some ⟨some []⟩⟩ = Except.ok [] ∧
    ragRetrieval ⟨some ⟨none⟩⟩ = Except.error "No search results from GroundX" :=
  ⟨((rag_empty_vs_missing ⟨some ⟨some []⟩⟩).1 rfl).1,
   (rag_empty_vs_missing ⟨some ⟨none⟩⟩).2 rfl⟩

/-- C7 counterexample: a non-empty query with the non-numeric bucketId abc
passes the precondition check and the retrieval call is issued with a NaN
collection id, instead of failing with InvalidRequest as claimed. -/
theorem rag_precondition_counterexample :
    ragDispatch (some "what is the policy") (some "abc") = RagStep.retrieve none ∧
    parseIntJS "abc" = none ∧
    ragDispatch (some "what is the policy") (some "abc") ≠ RagStep.invalidRequest := by
  exact ⟨rfl, rfl, by decide⟩

/-- C7 amended: the /rag handler fails with InvalidRequest iff the query or
the bucketId is absent or empty; whenever both are present the retrieval call
is issued with parseInt of the bucketId, which may be NaN. -/
theorem rag_precondition_amended (query bucketId : Option String) :
    (ragDispatch query bucketId = RagStep.invalidRequest ↔
      (jsFalsyOptStr query = true ∨ jsFalsyOptStr bucketId = true)) ∧
    (jsFalsyOptStr query = false → jsFalsyOptStr bucketId = false →
      ragDispatch query bucketId = RagStep.retrieve (parseIntJS (bucketId.getD ""))) := by
  constructor
  · cases hq : jsFalsyOptStr query <;> cases hb : jsFalsyOptStr bucketId <;>
      simp [ragDispatch, hq, hb]
  · intro h1 h2
    simp [ragDispatch, h1, h2]

/-- Witness for the amended C7 at concrete bodies. -/
theorem rag_precondition_amended_witness :
    ragDispatch (some "q") (some "7") = RagStep.retrieve (parseIntJS "7") ∧
    ragDispatch none (some "7") = RagStep.invalidRequest := by
  constructor
  · exact (rag_precondition_amended (some "q") (some "7")).2 (by decide) (by decide)
  · exact (rag_precondition_amended none (some "7")).1.mpr (Or.inl rfl)

/-- C8: for every subject with a stored session, getOrganizationSession
returns none and deletes the record when the age is at least 24 hours (the
exact boundary included), and returns the stored session with the store
unchanged when the age is strictly below 24 hours. -/
theorem impersonation_expiry (store : Store) (now : Int) (userId : String)
    (s : OrgSession) (h : store userId = some s) :
    (SESSION_TTL_MS ≤ now - s.timestamp →
      (getOrganizationSession store now userId).1 = none ∧
      (getOrganizationSession store now userId).2 userId = none) ∧
    (now - s.timestamp < SESSION_TTL_MS →
      getOrganizationSession store now userId = (some s, store)) := by
  have e : getOrganizationSession store now userId
      = if now - s.timestamp < SESSION_TTL_MS then (some s, store)
        else (none, eraseSession store userId) := by
    unfold getOrganizationSession
    rw [h]
  constructor
  · intro hle
    rw [e, if_neg (not_lt.mpr hle)]
    exact ⟨rfl, by simp [eraseSession]⟩
  · intro hlt
    rw [e, if_pos hlt]

/-- Witness for C8: at exactly 24 hours the session is expired and deleted; a
millisecond earlier it is returned unchanged. -/
theorem impersonation_expiry_witness :
    ((getOrganizationSession (fun k => if k = "u1" then some ⟨"org-42", 0⟩ else none)
        86400000 "u1").1 = none ∧
     (getOrganizationSession (fun k => if k = "u1" then some ⟨"org-42", 0⟩ else none)
        86400000 "u1").2 "u1" = none) ∧
    getOrganizationSession (fun k => if k = "u1" then some ⟨"org-42", 0⟩ else none)
        86399999 "u1"
      = (some ⟨"org-42", 0⟩, fun k => if k = "u1" then some ⟨"org-42", 0⟩ else none) := by
  constructor
  · exact (impersonation_expiry _ 86400000 "u1" ⟨"org-42", 0⟩ rfl).1 (by decide)
  · exact (impersonation_expiry _ 86399999 "u1" ⟨"org-42", 0⟩ rfl).2 (by decide)

/-- C9: for every non-privileged identity the session map is never consulted
(the store is returned unchanged) and the built context has active
organization id and name equal to the home organization id and name, for
every store content, clock and lookup. -/
theorem nonprivileged_active_is_home (configLookup : Option OrgInfo)
    (store : Store) (userId : String) (now : Int)
    (lookupOrg : String → Option OrgInfo) :
    (buildOrganizationContext false (resolveUserOrgInfo false configLookup)
        (determineActiveOrganization false (resolveUserOrgInfo false configLookup)
          store userId now lookupOrg).1).activeOrganizationId
      = (buildOrganizationContext false (resolveUserOrgInfo false configLookup)
          (determineActiveOrganization false (resolveUserOrgInfo false configLookup)
            store userId now lookupOrg).1).userOrganizationId ∧
    (buildOrganizationContext false (resolveUserOrgInfo false configLookup)
        (determineActiveOrganization false (resolveUserOrgInfo false configLookup)
          store userId now lookupOrg).1).activeOrganizationName
      = (buildOrganizationContext false (resolveUserOrgInfo false configLookup)
          (determineActiveOrganization false (resolveUserOrgInfo false configLookup)
            store userId now lookupOrg).1).userOrganizationName ∧
    (determineActiveOrganization false (resolveUserOrgInfo false configLookup)
        store userId now lookupOrg).2 = store := by
  exact ⟨rfl, rfl, rfl⟩

/-- C10 counterexample: a record whose primary score is plus infinity is
returned by extractBestScore with provenance primaryScore even though the
value is not a finite number, while the first-finite-field scan of the claim
returns the zero default. -/
theorem score_extraction_counterexample :
    extractBestScore { emptySearchItem with score := JsValue.num JsNum.posInf }
      = (JsNum.posInf, "primaryScore") ∧
    specExtractFiniteScore { emptySearchItem with score := JsValue.num JsNum.posInf }
      = (JsNum.val 0, "default") ∧
    isFiniteNumber (JsValue.num JsNum.posInf) = false := by
  exact ⟨rfl, rfl, rfl⟩

/-- C10 amended: extractBestScore returns the first candidate field, in the
fixed order, whose value is a number other than NaN (infinities qualify),
tagged with that field, defaulting to zero with provenance default; a record
with primary score 0.2 and metadata score 0.9 yields 0.2 tagged
primaryScore. -/
theorem score_extraction_amended (r : SearchResultItem) :
    extractBestScore r = specExtractNonNaNScore r ∧
    extractBestScore { emptySearchItem with
        score := JsValue.num (JsNum.val (1/5)),
        metadata := some ⟨JsValue.num (JsNum.val (9/10))⟩ }
      = (JsNum.val (1/5), "primaryScore") := by
  exact ⟨firstValidScore_eq_nonNaN (scoreFields r), rfl⟩
